import Mathlib

/-!
Verification of the derived-view pipeline (filter, sort, paginate) of the
book-catalog client, together with the detail-page actions (add to reading
list, submit review).  The definitions below are shallow embeddings of the
functions in src/src/pages/Books.tsx and src/src/pages/BookDetail.tsx.
-/

namespace LibraryApp

/-- The Book record (from the data model: identifier, title, author, genre,
description, cover-image reference, ISBN, publication year, optional
fractional rating, created/updated timestamps).  Rating is modelled as an
optional rational, publication year as an optional integer: the code guards
both with a default of 0. -/
structure Book where
  id : String
  title : String
  author : String
  genre : String
  description : String
  coverImage : String
  isbn : String
  publishedYear : Option Int
  rating : Option Rat
  createdAt : String
  updatedAt : String
deriving DecidableEq

/-- Model of JavaScript String.prototype.toLowerCase, character by
character (faithful on the ASCII data handled here). -/
def jsToLower (s : String) : String :=
  ⟨s.data.map Char.toLower⟩

/-- Model of JavaScript String.prototype.trim: whitespace is stripped from
both ends. -/
def jsTrim (s : String) : String :=
  ⟨((s.data.dropWhile Char.isWhitespace).reverse.dropWhile Char.isWhitespace).reverse⟩

/-- Does the character list needle occur contiguously inside hay?  Used to
model JavaScript String.prototype.includes. -/
def charListContains (hay needle : List Char) : Bool :=
  needle.isPrefixOf hay ||
    match hay with
    | [] => false
    | _ :: t => charListContains t needle

/-- Model of JavaScript s.includes(sub): sub occurs as a contiguous
substring of s. -/
def jsIncludes (s sub : String) : Bool :=
  charListContains s.data sub.data

/-- The per-book match predicate of the filter step in Books.tsx: the
lower-cased query (note: lower-cased but NOT trimmed) must occur in the
lower-cased title, author or genre. -/
def matchesQuery (searchQuery : String) (book : Book) : Bool :=
  jsIncludes (jsToLower book.title) (jsToLower searchQuery) ||
  jsIncludes (jsToLower book.author) (jsToLower searchQuery) ||
  jsIncludes (jsToLower book.genre) (jsToLower searchQuery)

/-- The filter step of Books.tsx (filteredBooks): if the trimmed query is
empty the raw collection is returned unchanged; otherwise the collection is
filtered by matchesQuery, which uses the lower-cased, untrimmed query. -/
def filteredBooks (books : List Book) (searchQuery : String) : List Book :=
  if jsTrim searchQuery == "" then books
  else books.filter (matchesQuery searchQuery)

/-- Definition following the spec words for the filter step: the match is
against the lower-cased, TRIMMED query.  Used only to compare with the
source definition filteredBooks. -/
def specMatchesQuery (searchQuery : String) (book : Book) : Bool :=
  jsIncludes (jsToLower book.title) (jsToLower (jsTrim searchQuery)) ||
  jsIncludes (jsToLower book.author) (jsToLower (jsTrim searchQuery)) ||
  jsIncludes (jsToLower book.genre) (jsToLower (jsTrim searchQuery))

/-- Definition following the spec words for the filter step, to be compared
with filteredBooks. -/
def specFilteredBooks (books : List Book) (searchQuery : String) : List Book :=
  if jsTrim searchQuery == "" then books
  else books.filter (specMatchesQuery searchQuery)

/-- Lookup of a string-valued field of a Book by name, modelling the dynamic
field access in the default branch of the sort comparator
(the expression String of the field value, defaulting the absent value to
the empty string).  The keys rating and publishedYear never reach this
branch, so only string-valued fields are listed. -/
def bookFieldStr (key : String) (b : Book) : String :=
  if key == "id" then b.id
  else if key == "title" then b.title
  else if key == "author" then b.author
  else if key == "genre" then b.genre
  else if key == "description" then b.description
  else if key == "coverImage" then b.coverImage
  else if key == "isbn" then b.isbn
  else if key == "createdAt" then b.createdAt
  else if key == "updatedAt" then b.updatedAt
  else ""

/-- The rating with an absent value defaulting to 0, as in the comparator
expression of the source file. -/
def ratingOr0 (b : Book) : Rat :=
  b.rating.getD 0

/-- The publication year with an absent value defaulting to 0, as in the
comparator expression of the source file. -/
def yearOr0 (b : Book) : Int :=
  b.publishedYear.getD 0

/-- The comparator passed to sort in Books.tsx, returning the sign-carrying
number the JavaScript comparator produces.  The default branch models
localeCompare on the lower-cased string values as ordinal string comparison
returning -1, 0 or 1 (locale-sensitive collation is not representable; on
the plain ASCII data of this client the ordinal comparison coincides). -/
def sortComparator (sortBy : String) (a b : Book) : Rat :=
  if sortBy == "rating" then ratingOr0 b - ratingOr0 a
  else if sortBy == "publishedYear" then ((yearOr0 b : Rat) - (yearOr0 a : Rat))
  else
    let valA := jsToLower (bookFieldStr sortBy a)
    let valB := jsToLower (bookFieldStr sortBy b)
    if valA < valB then -1 else if valB < valA then 1 else 0

/-- The ordering relation induced by the comparator: a may stay before b.
JavaScript sort keeps a before b exactly when the comparator does not
return a positive number for (a, b). -/
def jsSortLe (sortBy : String) (a b : Book) : Bool :=
  decide (sortComparator sortBy a b ≤ 0)

/-- The sort step of Books.tsx (sortedBooks): the copied array is sorted
with the comparator.  JavaScript sort is required to be stable and, for a
consistent comparator, to produce a sequence sorted by it; stable mergeSort
with the induced ordering relation is extensionally that function. -/
def sortedBooks (sortBy : String) (l : List Book) : List Book :=
  l.mergeSort (jsSortLe sortBy)

/-- The fixed page size of the catalog page. -/
def ITEMS_PER_PAGE : Nat := 12

/-- The total page count of Books.tsx: Math.ceil of length divided by the
page size, rendered as ceiling division on naturals (exact for the
non-negative integers involved). -/
def totalPages (sorted : List Book) : Nat :=
  (sorted.length + (ITEMS_PER_PAGE - 1)) / ITEMS_PER_PAGE

/-- Definition following the spec words for the total page count:
max(1, ceil(filteredCount / 12)).  Used only to compare with the source
definition totalPages. -/
def specTotalPages (filteredCount : Nat) : Nat :=
  max 1 ((filteredCount + 11) / 12)

/-- Model of JavaScript Array.prototype.slice(start, stop): negative
indices count from the end of the array, and the extracted range is clamped
to the array bounds. -/
def jsSlice {α : Type} (l : List α) (start stop : Int) : List α :=
  let len : Int := l.length
  let s : Int := if start < 0 then max (len + start) 0 else min start len
  let e : Int := if stop < 0 then max (len + stop) 0 else min stop len
  (l.drop s.toNat).take (e - s).toNat

/-- The paginate step of Books.tsx (paginatedBooks): the slice
[(page-1)*size, (page-1)*size + size) of the sorted sequence. -/
def paginatedBooks (currentPage : Int) (sorted : List Book) : List Book :=
  jsSlice sorted ((currentPage - 1) * (ITEMS_PER_PAGE : Int))
    ((currentPage - 1) * (ITEMS_PER_PAGE : Int) + (ITEMS_PER_PAGE : Int))

/-- The ReadingList record: identifier, name, and the (possibly absent)
collection of book identifiers. -/
structure ReadingList where
  id : String
  name : String
  bookIds : Option (List String)
deriving DecidableEq

/-- A backend call issued through the data-access collaborator by the
detail-page actions. -/
inductive ApiCall where
  | createReview (bookId userId : String) (rating : Int) (comment : String)
  | updateReadingList (id : String) (bookIds : List String) (name : String)
deriving DecidableEq

/-- The in-progress review form of BookDetail.tsx (newReview). -/
structure ReviewForm where
  rating : Int
  comment : String
deriving DecidableEq

/-- The slice of BookDetail.tsx state that the review-submission action
reads. -/
structure ReviewPageState where
  book : Option Book
  userId : Option String
  newReview : ReviewForm
  isSubmittingReview : Bool
deriving DecidableEq

/-- The handler handleReviewSubmit of BookDetail.tsx, abstracted to the
backend calls it issues: it returns early when no book or no user
identifier is present, and otherwise issues one createReview call with the
form contents.  Note the handler itself does not inspect the comment. -/
def handleReviewSubmit (s : ReviewPageState) : List ApiCall :=
  match s.book, s.userId with
  | some b, some u =>
      [ApiCall.createReview b.id u s.newReview.rating s.newReview.comment]
  | _, _ => []

/-- The disabled condition of the Submit Review button in BookDetail.tsx:
disabled when the comment is empty (falsy) or a submission is in flight. -/
def submitReviewDisabled (s : ReviewPageState) : Bool :=
  (s.newReview.comment == "") || s.isSubmittingReview

/-- Clicking the Submit Review button: a disabled button fires no handler,
so no backend call is issued; otherwise handleReviewSubmit runs. -/
def clickSubmitReview (s : ReviewPageState) : List ApiCall :=
  if submitReviewDisabled s then [] else handleReviewSubmit s

/-- The slice of BookDetail.tsx state that the add-to-reading-list action
reads and writes. -/
structure ListPageState where
  book : Option Book
  readingLists : List ReadingList
  selectedListId : String
  isModalOpen : Bool
  isUpdating : Bool
deriving DecidableEq

/-- The handler handleConfirmAdd of BookDetail.tsx on the successful
network path, as a state transformer paired with the backend calls it
issues.  It returns early when no list is selected or no book is loaded;
it then looks the selected list up, returning early (with the transient
isUpdating flag already toggled back off by the finally block) when the
identifier matches no loaded list; otherwise it persists the previous
bookIds (absent treated as empty) with the book identifier appended, and
closes the modal. -/
def handleConfirmAdd (s : ListPageState) : ListPageState × List ApiCall :=
  match s.book with
  | none => (s, [])
  | some book =>
    if s.selectedListId == "" then (s, [])
    else
      match s.readingLists.find? (fun l => l.id == s.selectedListId) with
      | none => ({ s with isUpdating := false }, [])
      | some targetList =>
          let updatedBookIds := (targetList.bookIds.getD []) ++ [book.id]
          ({ s with isModalOpen := false, isUpdating := false },
           [ApiCall.updateReadingList s.selectedListId updatedBookIds targetList.name])

/-- A concrete book used by witnesses and counterexamples. -/
def bookA : Book :=
  { id := "b1", title := "abc", author := "Ann Li", genre := "Fantasy"
    description := "a tale", coverImage := "cover", isbn := "isbn1"
    publishedYear := some 2001, rating := some 4
    createdAt := "2024-01-01", updatedAt := "2024-01-02" }

/-- A second concrete book, sharing the rating of bookA, used by
witnesses. -/
def bookB : Book :=
  { id := "b2", title := "zebra", author := "Bo Chen", genre := "Mystery"
    description := "a case", coverImage := "cover2", isbn := "isbn2"
    publishedYear := some 1999, rating := some 4
    createdAt := "2024-02-01", updatedAt := "2024-02-02" }

/-! Helper lemmas about the sort comparator. -/

theorem sortComparator_rating (a b : Book) :
    sortComparator "rating" a b = ratingOr0 b - ratingOr0 a := by
  simp [sortComparator]

theorem sortComparator_year (a b : Book) :
    sortComparator "publishedYear" a b = (yearOr0 b : Rat) - (yearOr0 a : Rat) := by
  simp [sortComparator]

theorem jsSortLe_rating_iff (a b : Book) :
    jsSortLe "rating" a b = true ↔ ratingOr0 b ≤ ratingOr0 a := by
  simp [jsSortLe, sortComparator_rating, sub_nonpos]

theorem jsSortLe_year_iff (a b : Book) :
    jsSortLe "publishedYear" a b = true ↔ yearOr0 b ≤ yearOr0 a := by
  simp [jsSortLe, sortComparator_year, sub_nonpos]

theorem jsSortLe_default_iff {k : String} (h1 : (k == "rating") = false)
    (h2 : (k == "publishedYear") = false) (a b : Book) :
    jsSortLe k a b = true ↔
      jsToLower (bookFieldStr k a) ≤ jsToLower (bookFieldStr k b) := by
  simp only [jsSortLe, sortComparator, h1, h2, Bool.false_eq_true, if_false,
    decide_eq_true_eq]
  rcases lt_trichotomy (jsToLower (bookFieldStr k a)) (jsToLower (bookFieldStr k b)) with
    h | h | h
  · simp [h, le_of_lt h]
  · simp [h, lt_irrefl]
  · rw [if_neg (not_lt_of_gt h), if_pos h]
    simp [not_le_of_gt h]

theorem jsSortLe_trans (k : String) (a b c : Book) :
    jsSortLe k a b → jsSortLe k b c → jsSortLe k a c := by
  intro hab hbc
  by_cases h1 : (k == "rating") = true
  · have hk : k = "rating" := by simpa using h1
    subst hk
    rw [jsSortLe_rating_iff] at *
    exact le_trans hbc hab
  · by_cases h2 : (k == "publishedYear") = true
    · have hk : k = "publishedYear" := by simpa using h2
      subst hk
      rw [jsSortLe_year_iff] at *
      exact le_trans hbc hab
    · rw [jsSortLe_default_iff (Bool.not_eq_true _ ▸ h1) (Bool.not_eq_true _ ▸ h2)] at *
      exact le_trans hab hbc

theorem jsSortLe_total (k : String) (a b : Book) :
    jsSortLe k a b || jsSortLe k b a := by
  by_cases h1 : (k == "rating") = true
  · have hk : k = "rating" := by simpa using h1
    subst hk
    rcases le_total (ratingOr0 a) (ratingOr0 b) with h | h
    · simp [Bool.or_eq_true, jsSortLe_rating_iff, h]
    · simp [Bool.or_eq_true, jsSortLe_rating_iff, h]
  · by_cases h2 : (k == "publishedYear") = true
    · have hk : k = "publishedYear" := by simpa using h2
      subst hk
      rcases le_total (yearOr0 a) (yearOr0 b) with h | h
      · simp [Bool.or_eq_true, jsSortLe_year_iff, h]
      · simp [Bool.or_eq_true, jsSortLe_year_iff, h]
    · have h1f : (k == "rating") = false := Bool.not_eq_true _ ▸ h1
      have h2f : (k == "publishedYear") = false := Bool.not_eq_true _ ▸ h2
      rcases le_total (jsToLower (bookFieldStr k a)) (jsToLower (bookFieldStr k b)) with h | h
      · simp [Bool.or_eq_true, jsSortLe_default_iff h1f h2f, h]
      · simp [Bool.or_eq_true, jsSortLe_default_iff h1f h2f, h]

/-- Claim C5: for every filtered sequence, sorting with key rating yields a
sequence that is non-increasing in rating, and sorting with key
publishedYear yields a sequence that is non-increasing in publication year,
where an absent rating or absent year is treated as 0 for comparison. -/
theorem claim_C5_sort_monotone (l : List Book) :
    (sortedBooks "rating" l).Pairwise (fun a b => ratingOr0 b ≤ ratingOr0 a) ∧
    (sortedBooks "publishedYear" l).Pairwise (fun a b => yearOr0 b ≤ yearOr0 a) := by
  constructor
  · exact (List.sorted_mergeSort (jsSortLe_trans "rating") (jsSortLe_total "rating") l).imp
      (fun h => (jsSortLe_rating_iff _ _).1 h)
  · exact (List.sorted_mergeSort (jsSortLe_trans "publishedYear")
      (jsSortLe_total "publishedYear") l).imp (fun h => (jsSortLe_year_iff _ _).1 h)

/-- Claim C6: for every input and sort key the sort step returns a new
sequence (a permutation of the input; the input itself is untouched, the
source copies the array before sorting), and the sort is stable: two items
whose comparator value is 0 keep their relative order from the input. -/
theorem claim_C6_sort_stable (k : String) (l : List Book) :
    (sortedBooks k l).Perm l ∧
    ∀ a b : Book, sortComparator k a b = 0 → List.Sublist [a, b] l →
      List.Sublist [a, b] (sortedBooks k l) := by
  refine ⟨List.mergeSort_perm l _, ?_⟩
  intro a b h0 hsub
  have hle : jsSortLe k a b = true := by
    simp [jsSortLe, h0]
  exact List.sublist_mergeSort (jsSortLe_trans k) (jsSortLe_total k)
    (by simp [List.pairwise_cons, hle]) hsub

/-- Witness for claim C6 at a concrete input: the two sample books share
the rating 4, and the rating sort keeps their input order. -/
theorem claim_C6_witness :
    sortComparator "rating" bookA bookB = 0 ∧
    List.Sublist [bookA, bookB] (sortedBooks "rating" [bookA, bookB]) := by
  have h0 : sortComparator "rating" bookA bookB = 0 := by
    simp [sortComparator_rating, ratingOr0, bookA, bookB]
  exact ⟨h0, (claim_C6_sort_stable "rating" [bookA, bookB]).2 bookA bookB h0
    (List.Sublist.refl _)⟩

/-! Helper lemmas about slicing. -/

theorem take_congr_min {α : Type} :
    ∀ (l : List α) (m n : Nat), min m l.length = min n l.length →
      l.take m = l.take n := by
  intro l
  induction l with
  | nil => intro m n _; simp
  | cons a t ih =>
    intro m n h
    match m, n with
    | 0, 0 => rfl
    | 0, n + 1 => simp only [List.length_cons] at h; omega
    | m + 1, 0 => simp only [List.length_cons] at h; omega
    | m + 1, n + 1 =>
      simp only [List.take_succ_cons]
      rw [ih m n (by simp only [List.length_cons] at h; omega)]

/-- On non-negative integer bounds, the JavaScript slice is drop then
take. -/
theorem jsSlice_natCast {α : Type} (l : List α) (a b : Nat) :
    jsSlice l (a : Int) (b : Int) = (l.drop a).take (b - a) := by
  simp only [jsSlice]
  rw [if_neg (by omega : ¬((a : Int) < 0)), if_neg (by omega : ¬((b : Int) < 0))]
  have hs : (min (a : Int) (l.length : Int)).toNat = min a l.length := by omega
  have ht : (min (b : Int) (l.length : Int) - min (a : Int) (l.length : Int)).toNat =
      min b l.length - min a l.length := by omega
  rw [hs, ht]
  rcases Nat.le_total a l.length with ha | ha
  · rw [min_eq_left ha]
    apply take_congr_min
    simp only [List.length_drop]
    omega
  · rw [min_eq_right ha, List.drop_length,
      List.drop_eq_nil_iff.mpr ha]
    simp

theorem chunks_flatten {α : Type} :
    ∀ (k : Nat) (l : List α), l.length ≤ k →
      ((List.range ((l.length + 11) / 12)).map
        (fun i => (l.drop (i * 12)).take 12)).flatten = l := by
  intro k
  induction k with
  | zero =>
    intro l hl
    have : l = [] := List.eq_nil_of_length_eq_zero (Nat.le_zero.mp hl)
    subst this
    simp
  | succ k ih =>
    intro l hl
    rcases Nat.eq_zero_or_pos l.length with h0 | h0
    · have : l = [] := List.eq_nil_of_length_eq_zero h0
      subst this
      simp
    · have hpages : (l.length + 11) / 12 = ((l.drop 12).length + 11) / 12 + 1 := by
        simp only [List.length_drop]
        omega
      rw [hpages, List.range_succ_eq_map, List.map_cons, List.map_map,
        List.flatten_cons]
      have hmap : ∀ i ∈ List.range (((l.drop 12).length + 11) / 12),
          ((fun i => (l.drop (i * 12)).take 12) ∘ Nat.succ) i =
            ((l.drop 12).drop (i * 12)).take 12 := by
        intro i _
        simp only [Function.comp_apply, List.drop_drop]
        rw [(by omega : Nat.succ i * 12 = 12 + i * 12)]
      rw [List.map_congr_left hmap, ih (l.drop 12) (by simp [List.length_drop]; omega)]
      simp only [List.drop_zero, Nat.zero_mul]
      exact List.take_append_drop 12 l

/-- Claim C7: the page slice for page p+1 (so for every page number at
least 1) at page size 12 is exactly the elements at indices
[p*12, p*12 + 12), and concatenating the slices for pages 1 through
totalPages reconstructs the full sorted sequence with each item appearing
exactly once. -/
theorem itemsPerPage_int : (ITEMS_PER_PAGE : Int) = 12 := by
  norm_num [ITEMS_PER_PAGE]

theorem claim_C7_pagination (l : List Book) :
    (∀ p : Nat, paginatedBooks ((p : Int) + 1) l = (l.drop (p * 12)).take 12) ∧
    ((List.range (totalPages l)).map
      (fun i : Nat => paginatedBooks ((i : Int) + 1) l)).flatten = l := by
  have hslice : ∀ p : Nat,
      paginatedBooks ((p : Int) + 1) l = (l.drop (p * 12)).take 12 := by
    intro p
    rw [paginatedBooks, itemsPerPage_int]
    have e2 : ((p : Int) + 1 - 1) * 12 + 12 = ((p * 12 + 12 : Nat) : Int) := by
      push_cast
      ring
    have e1 : ((p : Int) + 1 - 1) * 12 = ((p * 12 : Nat) : Int) := by
      push_cast
      ring
    rw [e2, e1, jsSlice_natCast]
    congr 1
    omega
  refine ⟨hslice, ?_⟩
  have ht : totalPages l = (l.length + 11) / 12 := by
    simp [totalPages, ITEMS_PER_PAGE]
  rw [ht, List.map_congr_left (fun i _ => hslice i)]
  exact chunks_flatten l.length l (le_refl _)

/-- The claim of C8 fails for page numbers far enough below 1: JavaScript
slice interprets negative bounds as offsets from the end of the array, so
page -1 on a 13-element sequence yields a non-empty slice. -/
theorem claim_C8_counterexample :
    paginatedBooks (-1) (List.replicate 13 bookA) ≠ [] ∧ (-1 : Int) < 1 := by
  constructor
  · decide
  · decide

/-- Claim C8 amended: the paginate step is a total function raising no
error; the slice is empty for every page number above totalPages and for
page number 0, but a page number below 0 follows the negative-offset
semantics of slice and can yield a non-empty slice. -/
theorem claim_C8_amended (l : List Book) (p : Int) :
    (p = 0 → paginatedBooks p l = []) ∧
    ((totalPages l : Int) < p → paginatedBooks p l = []) := by
  constructor
  · rintro rfl
    rw [paginatedBooks, itemsPerPage_int,
      (by norm_num : ((0 : Int) - 1) * 12 + 12 = 0),
      (by norm_num : ((0 : Int) - 1) * 12 = -12)]
    simp only [jsSlice]
    rw [if_pos (by omega : (-12 : Int) < 0), if_neg (by omega : ¬((0 : Int) < 0))]
    have h0 : (min (0 : Int) (l.length : Int) -
        max ((l.length : Int) + -12) 0).toNat = 0 := by omega
    rw [h0, List.take_zero]
  · intro hp
    have htp : totalPages l = (l.length + 11) / 12 := by
      simp [totalPages, ITEMS_PER_PAGE]
    rw [htp] at hp
    rw [paginatedBooks, itemsPerPage_int]
    have hstart : ((l.length : Int)) ≤ (p - 1) * 12 := by
      have h12 : l.length ≤ ((l.length + 11) / 12) * 12 := by omega
      have hp1 : (((l.length + 11) / 12 : Nat) : Int) ≤ p - 1 := by omega
      calc ((l.length : Int)) ≤ (((l.length + 11) / 12 : Nat) : Int) * 12 := by
            exact_mod_cast h12
        _ ≤ (p - 1) * 12 := mul_le_mul_of_nonneg_right hp1 (by omega)
    simp only [jsSlice]
    rw [if_neg (by omega : ¬((p - 1) * 12 < 0)),
      if_neg (by omega : ¬((p - 1) * 12 + 12 < 0))]
    have hs : (min ((p - 1) * 12) (l.length : Int)).toNat = l.length := by
      omega
    rw [hs, List.drop_length]
    simp

/-- Witness for claim C8 amended at a concrete input: page 3 of a
13-element sequence (whose total page count is 2) is empty. -/
theorem claim_C8_witness :
    (totalPages (List.replicate 13 bookA) : Int) < 3 ∧
    paginatedBooks 3 (List.replicate 13 bookA) = [] :=
  ⟨by decide, (claim_C8_amended (List.replicate 13 bookA) 3).2 (by decide)⟩

/-- The claim of C1 fails on the empty collection: the code computes
Math.ceil of length over page size with no minimum, so a filtered count of
0 yields 0 total pages where the claim demands max(1, ceil) = 1. -/
theorem claim_C1_counterexample :
    totalPages (sortedBooks "title" (filteredBooks [] "")) = 0 ∧
    specTotalPages ((filteredBooks ([] : List Book) "").length) = 1 := by
  constructor
  · simp [filteredBooks, sortedBooks, totalPages, jsTrim, ITEMS_PER_PAGE]
  · decide

/-- Claim C1 amended: for every raw collection, query and sort key, the
total page count computed by the pipeline equals ceil(filteredCount / 12)
with no minimum applied; in particular a filtered count of 0 yields 0
total pages (the page then renders the no-matches state and, because the
pagination control requires more than one page, no pagination control). -/
theorem claim_C1_amended (books : List Book) (q k : String) :
    totalPages (sortedBooks k (filteredBooks books q)) =
      ((filteredBooks books q).length + 11) / 12 ∧
    ((filteredBooks books q).length = 0 →
      totalPages (sortedBooks k (filteredBooks books q)) = 0) := by
  have hlen : (sortedBooks k (filteredBooks books q)).length =
      (filteredBooks books q).length := by
    simp [sortedBooks]
  constructor
  · simp [totalPages, ITEMS_PER_PAGE, hlen]
  · intro h
    simp [totalPages, ITEMS_PER_PAGE, hlen, h]

/-- Witness for claim C1 amended at a concrete input: the empty collection
filters to length 0 and the pipeline reports 0 total pages. -/
theorem claim_C1_witness :
    (filteredBooks ([] : List Book) "").length = 0 ∧
    totalPages (sortedBooks "title" (filteredBooks [] "")) = 0 :=
  ⟨by decide, (claim_C1_amended [] "" "title").2 (by decide)⟩

/-- The claim of C2 fails on a query with leading whitespace: the code
lower-cases the query for matching but does not trim it, so the query
with a leading space fails to match the book titled abc even though the
trimmed query is one of its substrings; the definition following the
spec words keeps the book. -/
theorem claim_C2_counterexample :
    filteredBooks [bookA] " abc" = [] ∧
    specFilteredBooks [bookA] " abc" = [bookA] := by
  constructor
  · decide
  · decide

/-- Claim C2 amended: the filter step returns the subsequence (a sublist,
so with original order preserved) of items matching the lower-cased,
UNTRIMMED query in at least one of title, author or genre; trimming is
used only to detect the empty query, in which case the output equals the
input. -/
theorem claim_C2_amended (books : List Book) (q : String) :
    (jsTrim q = "" → filteredBooks books q = books) ∧
    List.Sublist (filteredBooks books q) books ∧
    (jsTrim q ≠ "" → ∀ b : Book,
      b ∈ filteredBooks books q ↔ b ∈ books ∧ matchesQuery q b = true) := by
  refine ⟨?_, ?_, ?_⟩
  · intro h
    simp [filteredBooks, h]
  · rw [filteredBooks]
    split
    · exact List.Sublist.refl _
    · exact List.filter_sublist _
  · intro h b
    have hb : (jsTrim q == "") = false := by
      simpa using h
    simp [filteredBooks, hb, List.mem_filter]

/-- Witness for claim C2 amended at a concrete input: the query ann is
nonempty after trimming and membership in the filtered output is the
match predicate. -/
theorem claim_C2_witness :
    jsTrim "ann" ≠ "" ∧
    (bookA ∈ filteredBooks [bookA, bookB] "ann" ↔
      bookA ∈ [bookA, bookB] ∧ matchesQuery "ann" bookA = true) :=
  ⟨by decide, (claim_C2_amended [bookA, bookB] "ann").2.2 (by decide) bookA⟩

/-- Claim C3: submitting a review with an empty comment is rejected
client-side: in every state where the comment field is empty, the Submit
Review button is disabled, so the click issues no backend call and in
particular createReview is never invoked with an empty comment. -/
theorem claim_C3_empty_comment_no_call (s : ReviewPageState)
    (h : s.newReview.comment = "") :
    clickSubmitReview s = [] := by
  simp [clickSubmitReview, submitReviewDisabled, h]

/-- A concrete review-page state with an authenticated user, a loaded book
and an empty comment. -/
def reviewState3 : ReviewPageState :=
  { book := some bookA, userId := some "user-1"
    newReview := { rating := 5, comment := "" }, isSubmittingReview := false }

/-- Witness for claim C3 at a concrete state. -/
theorem claim_C3_witness :
    reviewState3.newReview.comment = "" ∧ clickSubmitReview reviewState3 = [] :=
  ⟨rfl, claim_C3_empty_comment_no_call reviewState3 rfl⟩

/-- Claim C4: the add-to-reading-list action persists the previous bookIds
sequence with the book identifier appended by simple concatenation, and if
the identifier is already present the persisted collection contains a
duplicate (its count is at least 2). -/
theorem claim_C4_append_no_dedup (s : ListPageState) (book : Book)
    (target : ReadingList) (prev : List String)
    (hb : s.book = some book) (hsel : s.selectedListId ≠ "")
    (hfind : s.readingLists.find? (fun l => l.id == s.selectedListId) = some target)
    (hprev : target.bookIds = some prev) :
    (handleConfirmAdd s).2 =
      [ApiCall.updateReadingList s.selectedListId (prev ++ [book.id]) target.name] ∧
    (book.id ∈ prev → 2 ≤ (prev ++ [book.id]).count book.id) := by
  have hsel' : (s.selectedListId == "") = false := by
    simpa using hsel
  constructor
  · simp [handleConfirmAdd, hb, hsel', hfind, hprev]
  · intro hmem
    rw [List.count_append]
    have h1 : 1 ≤ prev.count book.id := List.one_le_count_iff.mpr hmem
    have h2 : List.count book.id [book.id] = 1 := by simp
    omega

/-- A concrete reading list already containing the identifier of bookA. -/
def list4 : ReadingList :=
  { id := "L1", name := "Favorites", bookIds := some ["b1"] }

/-- A concrete detail-page state selecting that list with bookA loaded. -/
def state4 : ListPageState :=
  { book := some bookA, readingLists := [list4], selectedListId := "L1"
    isModalOpen := true, isUpdating := true }

/-- Witness for claim C4 at a concrete state: bookA is already in the
list, the persisted sequence is the concatenation, and it holds a
duplicate. -/
theorem claim_C4_witness :
    bookA.id ∈ ["b1"] ∧
    (handleConfirmAdd state4).2 =
      [ApiCall.updateReadingList "L1" (["b1"] ++ [bookA.id]) "Favorites"] ∧
    2 ≤ (["b1"] ++ [bookA.id]).count bookA.id := by
  have h := claim_C4_append_no_dedup state4 bookA list4 ["b1"] rfl (by decide) rfl rfl
  exact ⟨by decide, h.1, h.2 (by decide)⟩

/-- Claim C9: when the selected list identifier matches no loaded reading
list, the confirm-add action issues no backend call and leaves the reading
lists and the modal state unchanged; only the transient isUpdating flag is
toggled and ends restored to false. -/
theorem claim_C9_missing_list_no_call (s : ListPageState) (book : Book)
    (hb : s.book = some book) (hsel : s.selectedListId ≠ "")
    (hfind : s.readingLists.find? (fun l => l.id == s.selectedListId) = none) :
    (handleConfirmAdd s).2 = [] ∧
    (handleConfirmAdd s).1.readingLists = s.readingLists ∧
    (handleConfirmAdd s).1.isModalOpen = s.isModalOpen ∧
    (handleConfirmAdd s).1.isUpdating = false := by
  have hsel' : (s.selectedListId == "") = false := by
    simpa using hsel
  simp [handleConfirmAdd, hb, hsel', hfind]

/-- A concrete detail-page state whose selected identifier matches no
loaded list. -/
def state9 : ListPageState :=
  { book := some bookA, readingLists := [list4], selectedListId := "L9"
    isModalOpen := true, isUpdating := false }

/-- Witness for claim C9 at a concrete state. -/
theorem claim_C9_witness :
    (handleConfirmAdd state9).2 = [] ∧
    (handleConfirmAdd state9).1.readingLists = state9.readingLists ∧
    (handleConfirmAdd state9).1.isModalOpen = state9.isModalOpen ∧
    (handleConfirmAdd state9).1.isUpdating = false :=
  claim_C9_missing_list_no_call state9 bookA rfl (by decide) rfl

/-- Claim C10: when the target reading list has no bookIds collection, the
action treats it as empty, so the persisted collection is exactly the
one-element sequence holding the current book identifier. -/
theorem claim_C10_absent_bookIds (s : ListPageState) (book : Book)
    (target : ReadingList)
    (hb : s.book = some book) (hsel : s.selectedListId ≠ "")
    (hfind : s.readingLists.find? (fun l => l.id == s.selectedListId) = some target)
    (hnone : target.bookIds = none) :
    (handleConfirmAdd s).2 =
      [ApiCall.updateReadingList s.selectedListId [book.id] target.name] := by
  have hsel' : (s.selectedListId == "") = false := by
    simpa using hsel
  simp [handleConfirmAdd, hb, hsel', hfind, hnone]

/-- A concrete reading list with no bookIds collection. -/
def list10 : ReadingList :=
  { id := "L2", name := "To Read", bookIds := none }

/-- A concrete detail-page state selecting that list. -/
def state10 : ListPageState :=
  { book := some bookA, readingLists := [list10], selectedListId := "L2"
    isModalOpen := true, isUpdating := false }

/-- Witness for claim C10 at a concrete state. -/
theorem claim_C10_witness :
    (handleConfirmAdd state10).2 =
      [ApiCall.updateReadingList "L2" [bookA.id] "To Read"] :=
  claim_C10_absent_bookIds state10 bookA list10 rfl (by decide) rfl rfl

end LibraryApp
